import Mathlib

/-!
Verification development for the voice-to-voice product-discovery repository.

Shallow embedding of:
  * `src/agents/tools/web_search.py` (title normalization, shopping/web search,
    URL filtering, quality ranking);
  * `src/agents/mcp_server.py` (JSON-RPC message dispatch and error codes);
  * `src/agents/graph/graph.py` (the four-stage LangGraph pipeline);
  * the offline index build script (`build_index.py`, under `src/unnamed/part_000`).

Machine strings are modelled as Lean `String`/`List Char`; Python floats as `ℚ`;
Python `None` as `Option`; a Python function that can raise as `Except String`.
Language-model invocations are external services and are modelled as oracle
functions that are universally quantified in the theorems, so every theorem
holds for every possible model behavior.
-/

/-! ## Basic Python-style string helpers -/

/-- Python-style whitespace test used by `str.strip` and the regex class `\s`. -/
def isSpaceCh (c : Char) : Bool := c.isWhitespace

/-- Model of Python `str.strip()` on a character list: drop whitespace from both ends. -/
def stripChars (l : List Char) : List Char :=
  ((l.dropWhile isSpaceCh).reverse.dropWhile isSpaceCh).reverse

/-- Model of Python `str.strip()` on a `String`. -/
def pyStrip (s : String) : String := String.mk (stripChars s.toList)

/-- Model of Python `str.lower()` (ASCII case folding suffices for the inputs involved). -/
def lowerStr (s : String) : String := String.mk (s.toList.map Char.toLower)

/-- Does `hay` start with `needle`? (Explicit model of a string-prefix test.) -/
def leadsWith : List Char → List Char → Bool
  | [], _ => true
  | _ :: _, [] => false
  | a :: as, b :: bs => a = b && leadsWith as bs

/-- Model of Python substring containment `needle in hay` on character lists. -/
def hasSub (needle : List Char) : List Char → Bool
  | [] => leadsWith needle []
  | c :: rest => leadsWith needle (c :: rest) || hasSub needle rest

/-- Model of Python substring containment `needle in hay` on strings. -/
def strContains (needle hay : String) : Bool := hasSub needle.toList hay.toList

/-! ## A small backtracking matcher for the fixed regex patterns of
`_clean_title_for_search` (web_search.py lines 85-98).

A matcher receives the previous character (needed for the `\b` word-boundary
assertion; `none` at the start of the string) and the remaining input, and
returns the possible continuation states in the engine's priority order
(greedy quantifiers longest-first, alternatives left-first), exactly the
order in which Python's `re` backtracking engine tries them. -/

/-- Matcher state transformer: previous char and remaining input to candidate
continuations in priority order. -/
def Matcher : Type := Option Char → List Char → List (Option Char × List Char)

/-- Matcher accepting the empty string. -/
def mEps : Matcher := fun p r => [(p, r)]

/-- Sequencing of matchers (candidate order is the backtracking priority order). -/
def mSeq (m1 m2 : Matcher) : Matcher := fun p r =>
  (m1 p r).flatMap (fun st => m2 st.1 st.2)

/-- Alternation, left alternative preferred (Python `re` alternation order). -/
def mAlt (m1 m2 : Matcher) : Matcher := fun p r => m1 p r ++ m2 p r

/-- Single character from a class. -/
def mCls (f : Char → Bool) : Matcher := fun _ r =>
  match r with
  | [] => []
  | c :: rs => if f c then [(some c, rs)] else []

/-- Case-insensitive literal character (patterns are compiled with `re.IGNORECASE`;
all pattern literals are lowercase). -/
def mChar (c0 : Char) : Matcher := mCls (fun c => c.toLower = c0)

/-- Case-insensitive literal string. -/
def mLit (s : String) : Matcher := s.toList.foldr (fun c m => mSeq (mChar c) m) mEps

/-- All ways to consume a (possibly empty) run of class characters,
longest first (greedy `*`). -/
def manyDesc (f : Char → Bool) : Option Char → List Char → List (Option Char × List Char)
  | p, [] => [(p, [])]
  | p, c :: rs => if f c then manyDesc f (some c) rs ++ [(p, c :: rs)] else [(p, c :: rs)]

/-- Greedy `class*`. -/
def mStar (f : Char → Bool) : Matcher := fun p r => manyDesc f p r

/-- Greedy `class+`. -/
def mMore (f : Char → Bool) : Matcher := fun _ r =>
  match r with
  | [] => []
  | c :: rs => if f c then manyDesc f (some c) rs else []

/-- Greedy `?` (match preferred over skip). -/
def mOpt (m : Matcher) : Matcher := fun p r => m p r ++ [(p, r)]

/-- Python `\w` word character (ASCII model). -/
def isWordCh (c : Char) : Bool := c.isAlphanum || c = '_'

/-- Zero-width word-boundary assertion `\b`. -/
def mWb : Matcher := fun p r =>
  let left := match p with | some c => isWordCh c | none => false
  let right := match r with | c :: _ => isWordCh c | [] => false
  if left != right then [(p, r)] else []

/-- The first candidate that actually consumed input; all seven noise patterns
consume at least one character on every match, so this is the engine's
first match at this position when one exists. -/
def matchStep (m : Matcher) (p : Option Char) (r : List Char) :
    Option (Option Char × List Char) :=
  (m p r).find? (fun st => st.2.length < r.length)

/-- Fuelled core of `re.sub(pattern, "", s)`: scan left to right, delete each
leftmost non-overlapping match, resume scanning after it. Every match consumes
at least one character, so fuel `length + 1` always suffices. -/
def subAllF (m : Matcher) : Nat → Option Char → List Char → List Char
  | 0, _, r => r
  | _ + 1, _, [] => []
  | fuel + 1, p, c :: rs =>
    match matchStep m p (c :: rs) with
    | some st => subAllF m fuel st.1 st.2
    | none => c :: subAllF m fuel (some c) rs

/-- Model of `re.sub(pattern, "", s)` for the noise patterns. -/
def subAll (m : Matcher) (l : List Char) : List Char :=
  subAllF m (l.length + 1) none l

/-! ## web_search.py: `_clean_title_for_search` -/

/-- The separator class of `re.split(r"[|\-\(\)\:]", title)`. -/
def sepChar (c : Char) : Bool :=
  c = '|' || c = '-' || c = '(' || c = ')' || c = ':'

/-- Digit class `\d` (ASCII model of Python `re`). -/
def digitCls (c : Char) : Bool := c.isDigit

/-- Pattern `\b\d+\s*pcs?\b`. -/
def patPcs : Matcher :=
  mSeq mWb (mSeq (mMore digitCls) (mSeq (mStar isSpaceCh)
    (mSeq (mLit "pc") (mSeq (mOpt (mLit "s")) mWb))))

/-- Pattern `\b\d+\s*pc\b`. -/
def patPc : Matcher :=
  mSeq mWb (mSeq (mMore digitCls) (mSeq (mStar isSpaceCh) (mSeq (mLit "pc") mWb)))

/-- Pattern `\b\d+\s*piece(s)?\b`. -/
def patPiece : Matcher :=
  mSeq mWb (mSeq (mMore digitCls) (mSeq (mStar isSpaceCh)
    (mSeq (mLit "piece") (mSeq (mOpt (mLit "s")) mWb))))

/-- Pattern `\b\d+\s*(inch|inches|in)\b` (alternatives in source order). -/
def patInch : Matcher :=
  mSeq mWb (mSeq (mMore digitCls) (mSeq (mStar isSpaceCh)
    (mSeq (mAlt (mLit "inch") (mAlt (mLit "inches") (mLit "in"))) mWb)))

/-- Pattern `\b\d+\s*(cm|mm|oz|g|ml)\b` (alternatives in source order). -/
def patUnits : Matcher :=
  mSeq mWb (mSeq (mMore digitCls) (mSeq (mStar isSpaceCh)
    (mSeq (mAlt (mLit "cm") (mAlt (mLit "mm") (mAlt (mLit "oz")
      (mAlt (mLit "g") (mLit "ml"))))) mWb)))

/-- Pattern `\b1/\d+\s*scale\b`. -/
def patScale : Matcher :=
  mSeq mWb (mSeq (mLit "1/") (mSeq (mMore digitCls)
    (mSeq (mStar isSpaceCh) (mSeq (mLit "scale") mWb))))

/-- Pattern `\bfor ages?\s*\d+\+?\b`. -/
def patAges : Matcher :=
  mSeq mWb (mSeq (mLit "for age") (mSeq (mOpt (mLit "s"))
    (mSeq (mStar isSpaceCh) (mSeq (mMore digitCls) (mSeq (mOpt (mLit "+")) mWb)))))

/-- The `noise_patterns` list, in source order. -/
def noisePats : List Matcher :=
  [patPcs, patPc, patPiece, patInch, patUnits, patScale, patAges]

/-- Model of `re.split(r"[|\-\(\)\:]", title)`: split at every separator
character (separators removed; `re.split` always returns a non-empty list). -/
def splitSeps : List Char → List (List Char)
  | [] => [[]]
  | c :: rest =>
    if sepChar c then [] :: splitSeps rest
    else
      match splitSeps rest with
      | [] => [[c]]
      | p :: ps => (c :: p) :: ps

/-- Model of `re.sub(r"\s+", " ", s)`: replace each maximal whitespace run by
one space. The boolean argument records whether the previous character was
part of a whitespace run. -/
def collapseWsAux : Bool → List Char → List Char
  | _, [] => []
  | prevSp, c :: rs =>
    if isSpaceCh c then
      if prevSp then collapseWsAux true rs else ' ' :: collapseWsAux true rs
    else c :: collapseWsAux false rs

/-- Model of `re.sub(r"\s+", " ", s)`. -/
def collapseWs (l : List Char) : List Char := collapseWsAux false l

/-- Embedding of `_clean_title_for_search` (web_search.py lines 76-102):
keep the text left of the first separator, strip it, delete the seven noise
patterns in order, collapse whitespace, strip. -/
def cleanTitle (title : String) : String :=
  if title = "" then ""
  else
    let parts := splitSeps title.toList
    let base :=
      match parts with
      | [] => stripChars title.toList
      | p :: _ => stripChars p
    let base := noisePats.foldl (fun b m => subAll m b) base
    String.mk (stripChars (collapseWs base))

/-- Modelled from the spec's words (§4.4): the normalization described as
"truncating at the first separator character" — i.e. `takeWhile` on
non-separators — followed by the same noise-token removal and whitespace
collapsing. Stated for comparison with `cleanTitle`, which instead takes the
head of the `re.split` part list. -/
def cleanTitleSpec (title : String) : String :=
  if title = "" then ""
  else
    let base := stripChars (title.toList.takeWhile (fun c => !sepChar c))
    let base := noisePats.foldl (fun b m => subAll m b) base
    String.mk (stripChars (collapseWs base))

/-- The query actually sent to the search API
(web_search.py lines 165-167: `query = cleaned_query if cleaned_query else raw_query`). -/
def effQuery (query : String) : String :=
  let cleaned := cleanTitle query
  if cleaned = "" then query else cleaned

/-! ## web_search.py: result records and the two Serper calls

The HTTP layer is modelled by an environment carrying, per query string, the
parsed upstream response lists (`organic` for `/search`, `shopping` for
`/shopping`), plus the optional API key. -/

/-- A price value as allowed by the output schema: number or freeform string. -/
inductive SVal
  | n (q : ℚ)
  | s (v : String)
deriving DecidableEq

/-- One raw item of the generic `/search` response's `organic` array. -/
structure RawWeb where
  title : Option String := none
  link : Option String := none
  snippet : Option String := none
deriving DecidableEq

/-- One raw item of the `/shopping` response's `shopping` array. -/
structure RawShop where
  title : Option String := none
  link : Option String := none
  snippet : Option String := none
  price : Option SVal := none
  availability : Option String := none
  condition : Option String := none
  rating : Option ℚ := none
  ratingCount : Option Int := none
deriving DecidableEq

/-- A normalized web/shopping result as built by the tool. A generic-mode
result dict carries no `rating`/`rating_count` keys at all; key absence is
modelled as `none`. -/
structure WebResult where
  title : Option String
  url : Option String
  snippet : Option String
  price : Option SVal
  availability : Option String
  rating : Option ℚ
  ratingCount : Option Int
deriving DecidableEq

/-- The web-search environment: API key and upstream responses per query. -/
structure WebEnv where
  apiKey : Option String
  organic : String → List RawWeb
  shopping : String → List RawShop

/-- Python `a or b` on optional strings (`None` and `""` are falsy). -/
def pyOrStr : Option String → Option String → Option String
  | some s, b => if s = "" then b else some s
  | none, b => b

/-- The per-item normalization of `_call_serper_search` (lines 62-72): the
built dict has `price` and `availability` set to `None` and carries no
`rating`/`rating_count` keys (key absence modelled as `none`). -/
def convWeb (it : RawWeb) : WebResult :=
  ⟨it.title, it.link, it.snippet, none, none, none, none⟩

/-- Embedding of `_call_serper_search` (lines 39-73): map the first
`max_results` organic items to normalized results with `price`/`availability`
fixed to `None`; empty when no API key. -/
def serperSearch (env : WebEnv) (query : String) (maxResults : Nat) : List WebResult :=
  match env.apiKey with
  | none => []
  | some _ => ((env.organic query).take maxResults).map convWeb

/-- The per-item normalization of `_call_serper_shopping` (lines 128-139). -/
def convShop (it : RawShop) : WebResult :=
  ⟨it.title, it.link, it.snippet, it.price,
   pyOrStr it.availability it.condition, it.rating, it.ratingCount⟩

/-- Embedding of `_quality_sort_key` (lines 22-37): the composite key
`(has_rating, int(rating_count or 0), float(rating or 0.0))`. -/
def qkey (r : WebResult) : Nat × Int × ℚ :=
  ((if r.rating.isSome then 1 else 0 : Nat),
   r.ratingCount.getD 0,
   r.rating.getD 0)

/-- Lexicographic `≤` on the composite sort key (Python tuple comparison). -/
def keyLE (a b : Nat × Int × ℚ) : Bool :=
  decide (a.1 < b.1) ||
    (decide (a.1 = b.1) &&
      (decide (a.2.1 < b.2.1) ||
        (decide (a.2.1 = b.2.1) && decide (a.2.2 ≤ b.2.2))))

/-- The descending order used by `sorted(..., key=_quality_sort_key, reverse=True)`:
`a` may precede `b` when `b`'s key is at most `a`'s key. -/
def descRel (a b : WebResult) : Prop := keyLE (qkey b) (qkey a) = true

instance : DecidableRel descRel := fun a b => by
  unfold descRel
  infer_instance

instance : IsTotal WebResult descRel where
  total a b := by
    unfold descRel
    generalize qkey a = ka
    generalize qkey b = kb
    rcases ka with ⟨a1, a2, a3⟩
    rcases kb with ⟨b1, b2, b3⟩
    unfold keyLE
    simp only [Bool.or_eq_true, Bool.and_eq_true, decide_eq_true_eq]
    rcases lt_trichotomy b1 a1 with h1 | h1 | h1
    · exact Or.inl (Or.inl h1)
    · rcases lt_trichotomy b2 a2 with h2 | h2 | h2
      · exact Or.inl (Or.inr ⟨h1, Or.inl h2⟩)
      · rcases le_total b3 a3 with h3 | h3
        · exact Or.inl (Or.inr ⟨h1, Or.inr ⟨h2, h3⟩⟩)
        · exact Or.inr (Or.inr ⟨h1.symm, Or.inr ⟨h2.symm, h3⟩⟩)
      · exact Or.inr (Or.inr ⟨h1.symm, Or.inl h2⟩)
    · exact Or.inr (Or.inl h1)

instance : IsTrans WebResult descRel where
  trans a b c hab hbc := by
    unfold descRel at hab hbc ⊢
    revert hab hbc
    generalize qkey a = ka
    generalize qkey b = kb
    generalize qkey c = kc
    rcases ka with ⟨a1, a2, a3⟩
    rcases kb with ⟨b1, b2, b3⟩
    rcases kc with ⟨c1, c2, c3⟩
    unfold keyLE
    simp only [Bool.or_eq_true, Bool.and_eq_true, decide_eq_true_eq]
    rintro (h1 | ⟨e1, h1⟩) (h2 | ⟨e2, h2⟩)
    · exact Or.inl (by omega)
    · exact Or.inl (by omega)
    · exact Or.inl (by omega)
    · refine Or.inr ⟨by omega, ?_⟩
      rcases h1 with g1 | ⟨f1, g1⟩
      · rcases h2 with g2 | ⟨f2, g2⟩
        · exact Or.inl (by omega)
        · exact Or.inl (by omega)
      · rcases h2 with g2 | ⟨f2, g2⟩
        · exact Or.inl (by omega)
        · exact Or.inr ⟨by omega, g2.trans g1⟩

/-- The URL filter of `_call_serper_shopping` (lines 141-151): the stripped
URL must be non-empty and its lowercasing must not contain `"q=nan"`. -/
def goodUrl (r : WebResult) : Bool :=
  let u := pyStrip (r.url.getD "")
  decide (u ≠ "") && !(strContains "q=nan" (lowerStr u))

/-- Embedding of `_call_serper_shopping` (lines 104-162): map the first
`max_results` shopping items, drop results with empty or `q=nan` URLs,
fall back to the unfiltered list if the filter removed everything, sort by
the quality key descending (Python's `sorted` is a stable sort; a stable
insertion sort is extensionally identical for this total preorder), and
truncate to `max_results`. -/
def serperShopping (env : WebEnv) (query : String) (maxResults : Nat) : List WebResult :=
  match env.apiKey with
  | none => []
  | some _ =>
    let results := ((env.shopping query).take maxResults).map convShop
    let cleaned := results.filter goodUrl
    let cleaned2 := if cleaned.isEmpty then results else cleaned
    (List.insertionSort descRel cleaned2).take maxResults

/-- The tool's return value `{"results": ..., "note": ...}`. -/
structure WebOut where
  results : List WebResult
  note : Option String
deriving DecidableEq

/-- Embedding of `web_search_tool` (lines 164-180): normalize the query with
fallback to the raw query, short-circuit with a note when no API key is set,
then dispatch on `mode == "shopping"`. -/
def webSearchTool (env : WebEnv) (query : String) (maxResults : Nat) (mode : String) : WebOut :=
  let q := effQuery query
  match env.apiKey with
  | none => ⟨[], some "SERPER_API_KEY not set."⟩
  | some _ =>
    if mode = "shopping" then ⟨serperShopping env q maxResults, none⟩
    else ⟨serperSearch env q maxResults, none⟩

/-! ## mcp_server.py: JSON-RPC message dispatch

`handle_initialize`, `handle_tools_list`, `handle_tools_call` and
`process_mcp_message` (mcp_server.py lines 64-170). A request id may be a
number or a string (or absent). The two tool implementations are external
effects and are modelled as environment functions returning `Except`:
a Python exception (including a keyword-argument mismatch raised inside the
`try` block) is `Except.error msg`; the successfully serialized result
payload is an opaque string. -/

/-- A JSON-RPC request id value. -/
inductive JId
  | num (n : Int)
  | str (s : String)
deriving DecidableEq

/-- The `arguments` mapping of a `tools/call` request (opaque key-value pairs). -/
def ToolArgs : Type := List (String × String)

/-- The `params` object of a request; `.get("name")` may be absent. -/
structure MParams where
  name : Option String
  arguments : ToolArgs

/-- An inbound MCP message; `id`, `method` and `params` may each be absent. -/
structure Message where
  id : Option JId
  method : Option String
  params : Option MParams

/-- The body of a response: exactly one of the source's `result`/`error` shapes. -/
inductive RBody
  | initResult (protocolVersion serverName serverVersion : String)
  | toolsResult (names : List String)
  | callResult (text : String) (structured : String)
  | errorResult (code : Int) (msg : String)
deriving DecidableEq

/-- A JSON-RPC response object. -/
structure Resp where
  jsonrpc : String
  id : Option JId
  body : RBody

/-- The two tool implementations seen from the server. -/
structure ToolEnv where
  rag : ToolArgs → Except String String
  web : ToolArgs → Except String String

/-- Python `f"{x}"` on an optional string (`None` renders as `"None"`). -/
def pyShowName : Option String → String
  | none => "None"
  | some s => s

/-- The `tool_functions` lookup of `handle_tools_call` (lines 102-105). -/
def toolFor (env : ToolEnv) : Option String → Option (ToolArgs → Except String String)
  | some "rag_search_tool" => some env.rag
  | some "web_search_tool" => some env.web
  | _ => none

/-- Default for `message.get("params", {})`: no name, empty arguments. -/
def emptyParams : MParams := ⟨none, []⟩

/-- Embedding of `handle_tools_call` (lines 97-146). On success the content
text is `json.dumps(result)`; serialization of the opaque payload is modelled
as the payload itself. -/
def handleToolsCall (env : ToolEnv) (m : Message) : Resp :=
  let p := m.params.getD emptyParams
  match toolFor env p.name with
  | none =>
    ⟨"2.0", m.id, .errorResult (-32601) ("Tool not found: " ++ pyShowName p.name)⟩
  | some f =>
    match f p.arguments with
    | .ok r => ⟨"2.0", m.id, .callResult r r⟩
    | .error e =>
      ⟨"2.0", m.id, .errorResult (-32603) ("Tool execution error: " ++ e)⟩

/-- Embedding of `handle_initialize` (lines 64-82). -/
def handleInitialize (m : Message) : Resp :=
  ⟨"2.0", m.id, .initResult "2024-11-05" "customer-management-server" "1.0.0"⟩

/-- Embedding of `handle_tools_list` (lines 84-95); `MCP_TOOLS` names in order. -/
def handleToolsList (m : Message) : Resp :=
  ⟨"2.0", m.id, .toolsResult ["web_search_tool", "rag_search_tool"]⟩

/-- Embedding of `process_mcp_message` (lines 148-170). -/
def processMcpMessage (env : ToolEnv) (m : Message) : Resp :=
  match m.method with
  | some "initialize" => handleInitialize m
  | some "tools/list" => handleToolsList m
  | some "tools/call" => handleToolsCall env m
  | other =>
    ⟨"2.0", m.id, .errorResult (-32601) ("Method not found: " ++ pyShowName other)⟩

/-! ## graph.py: the four-stage LangGraph pipeline

The shared `AgentState` dict and the four node functions (graph.py lines
80-305). Each node returns a partial update (a dict containing only the keys
it writes); LangGraph merges the update into the state. The language-model
and the retrieval sub-agent are external services, modelled as an oracle over
which the theorems quantify. The Retriever's final AI message may be absent,
in which case the `knowledge` key is still written, with value `None`; key
presence is therefore a separate `Option` layer for that field. -/

/-- The pipeline state (`AgentState`): `input` is set at creation, every
other field starts unset. -/
structure PState where
  input : String
  intent : Option String := none
  plan : Option String := none
  knowledge : Option String := none
  retrievedContext : Option (List String) := none
  response : Option String := none
  done : Option Bool := none

/-- A node's returned update: `some v` means the key is present in the
returned dict with value `v`; `none` means the key is not written. For
`knowledge` the written value may itself be `None`. -/
structure Update where
  input : Option String := none
  intent : Option String := none
  plan : Option String := none
  knowledge : Option (Option String) := none
  retrievedContext : Option (List String) := none
  response : Option String := none
  done : Option Bool := none

/-- LangGraph's merge of a node update into the state (dict update). -/
def applyUpdate (s : PState) (u : Update) : PState where
  input := u.input.getD s.input
  intent := match u.intent with | some v => some v | none => s.intent
  plan := match u.plan with | some v => some v | none => s.plan
  knowledge := match u.knowledge with | some v => v | none => s.knowledge
  retrievedContext :=
    match u.retrievedContext with | some v => some v | none => s.retrievedContext
  response := match u.response with | some v => some v | none => s.response
  done := match u.done with | some v => some v | none => s.done

/-- The external services: each function stands for "build the stage prompt
and invoke the model" (for the Retriever, "run the tool-calling sub-agent"),
returning the produced content. The Retriever yields the optional final AI
message and the ordered tool-message payloads. -/
structure Oracle where
  routerLLM : String → String
  plannerLLM : String → String → String
  retrieverAgent : String → String → Option String × List String
  answerLLM : String → String → String

/-- Embedding of `router_node` (lines 96-119): reads `input`, writes `intent`. -/
def routerUpdate (o : Oracle) (s : PState) : Update :=
  { intent := some (o.routerLLM s.input) }

/-- Embedding of `planner_node` (lines 126-167): reads `intent` (default
`"No intent provided"`) and `input`, writes `plan`. -/
def plannerUpdate (o : Oracle) (s : PState) : Update :=
  { plan := some (o.plannerLLM (s.intent.getD "No intent provided") s.input) }

/-- Embedding of `retrieve_node` (lines 188-236): reads `plan` (default
`"No plan provided"`) and `input`, writes `knowledge` (possibly `None`) and
`retrieved_context`. -/
def retrieveUpdate (o : Oracle) (s : PState) : Update :=
  let r := o.retrieverAgent (s.plan.getD "No plan provided") s.input
  { knowledge := some r.1, retrievedContext := some r.2 }

/-- Embedding of `answer_critic_node` (lines 242-279): reads `input` and
`knowledge` (default `"No knowledge provided"`), writes `response` and —
unconditionally — `done = True`. -/
def answerUpdate (o : Oracle) (s : PState) : Update :=
  { response := some (o.answerLLM s.input (s.knowledge.getD "No knowledge provided")),
    done := some true }

/-- The graph's nodes. -/
inductive GNode
  | router
  | planner
  | retriever
  | answer
deriving DecidableEq

/-- A node's update function (graph.py `add_node` wiring, lines 288-291). -/
def nodeUpdate (o : Oracle) : GNode → PState → Update
  | .router, s => routerUpdate o s
  | .planner, s => plannerUpdate o s
  | .retriever, s => retrieveUpdate o s
  | .answer, s => answerUpdate o s

/-- The graph's edges (lines 293-305): a fixed chain, plus the conditional
edge out of Answer — `"END" if state.get("done") else "Planner"`, evaluated
on the state after the node's update (`done` is truthy only as `True`).
`none` is the graph end. -/
def nextNode : GNode → PState → Option GNode
  | .router, _ => some .planner
  | .planner, _ => some .retriever
  | .retriever, _ => some .answer
  | .answer, s => match s.done with
    | some true => none
    | _ => some .planner

/-- Fuelled execution from a node, collecting the visit order. -/
def runAux (o : Oracle) : Nat → GNode → PState → List GNode × PState
  | 0, _, s => ([], s)
  | fuel + 1, n, s =>
    let s' := applyUpdate s (nodeUpdate o n s)
    match nextNode n s' with
    | none => ([n], s')
    | some n' =>
      let r := runAux o fuel n' s'
      (n :: r.1, r.2)

/-- A full pipeline run started with only `input` populated (fuel 9 is more
than the four stages can consume before the terminal edge). -/
def runPipeline (o : Oracle) (q : String) : List GNode × PState :=
  runAux o 9 .router { input := q }

/-- The write-set of an update as a fixed-layout boolean vector:
`[input, intent, plan, knowledge, retrieved_context, response, done]`. -/
def writeVec (u : Update) : List Bool :=
  [u.input.isSome, u.intent.isSome, u.plan.isSome, u.knowledge.isSome,
   u.retrievedContext.isSome, u.response.isSome, u.done.isSome]

/-! ## build_index.py (src/unnamed/part_000): offline index build

Rows of the product parquet after `pd.to_numeric(..., errors="coerce")`:
a cell that is missing or fails numeric parsing (e.g. the string `"N/A"`)
coerces to NaN, modelled as `Cell.na`. String columns are modelled after
their `fillna("")` normalization. The dataset is assumed to have no
pre-built `features` column, so `build_features_column` constructs the
feature text (lines 27-54); note that `df["rating"].astype(str)` renders a
NaN rating as the literal string `"nan"`, and the subsequent `.fillna("")`
is applied to a column that no longer contains NaN. -/

/-- A numeric cell after coercion: a number, or NaN (missing/unparseable). -/
inductive Cell
  | num (q : ℚ)
  | na
deriving DecidableEq

/-- `pd.to_numeric(..., errors="coerce")` followed by `notna`: the parsed value. -/
def toNumeric : Cell → Option ℚ
  | .num q => some q
  | .na => none

/-- One row of the product dataset (string columns already `fillna("")`-normalized). -/
structure PRow where
  id : String
  title : String := ""
  brand : String := ""
  category : String := ""
  ingredients : String := ""
  description : String := ""
  about : String := ""
  specification : String := ""
  price : Cell
  rating : Cell
deriving DecidableEq

/-- `df["rating"].astype(str)` on one coerced cell: NaN renders as `"nan"`;
a numeric value renders as its decimal text (opaque here beyond being the
number's text). -/
def ratingText (r : PRow) : String :=
  match toNumeric r.rating with
  | some q => toString q
  | none => "nan"

/-- `build_features_column` (lines 43-52): the concatenated feature text. -/
def featuresOf (r : PRow) : String :=
  r.title ++ " " ++ r.brand ++ " " ++ r.category ++ " " ++ r.ingredients ++ " " ++
    ratingText r ++ " " ++ r.description ++ " " ++ r.about ++ " " ++ r.specification

/-- One persisted entry of the vector collection: id, document text and the
metadata dict of `main` (lines 117-127). -/
structure IndexEntry where
  id : String
  document : String
  title : String
  brand : String
  category : String
  price : ℚ
  rating : ℚ
  ingredients : String
deriving DecidableEq

/-- The row-level pipeline of `main` (lines 71-149): drop rows whose price
fails numeric parsing, then index every surviving row with its feature text
and metadata, defaulting a missing rating to `0.0`. -/
def buildIndex (rows : List PRow) : List IndexEntry :=
  (rows.filter (fun r => (toNumeric r.price).isSome)).map
    (fun r =>
      ⟨r.id, featuresOf r, r.title, r.brand, r.category,
       (toNumeric r.price).getD 0, (toNumeric r.rating).getD 0, r.ingredients⟩)

/-! ## Concrete inputs used by witness and counterexample theorems -/

/-- The rational 4.5 as a reduced-form literal (kernel-evaluable). -/
def q45 : ℚ := ⟨9, 2, by decide, by decide⟩

/-- The rational 4.9 as a reduced-form literal (kernel-evaluable). -/
def q49 : ℚ := ⟨49, 10, by decide, by decide⟩

/-- Shopping item A of the spec's ranking example: rating 4.5, 10 reviews. -/
def rawA : RawShop :=
  { title := some "A", link := some "https://a.example/p", rating := some q45,
    ratingCount := some 10 }

/-- Shopping item B of the ranking example: no rating. -/
def rawB : RawShop :=
  { title := some "B", link := some "https://b.example/p" }

/-- Shopping item C of the ranking example: rating 4.9, 2 reviews. -/
def rawC : RawShop :=
  { title := some "C", link := some "https://c.example/p", rating := some q49,
    ratingCount := some 2 }

/-- Environment whose shopping endpoint returns the A, B, C example items. -/
def envABC : WebEnv :=
  ⟨some "k", fun _ => [], fun _ => [rawA, rawB, rawC]⟩

/-- A shopping item carrying no URL at all. -/
def rawNoUrl : RawShop :=
  { title := some "Mystery Toy", rating := some q45, ratingCount := some 3 }

/-- Environment whose shopping endpoint returns only the URL-less item. -/
def envNoUrl : WebEnv :=
  ⟨some "k", fun _ => [], fun _ => [rawNoUrl]⟩

/-- A generic-web raw result. -/
def rawW1 : RawWeb :=
  { title := some "W1", link := some "https://w1.example", snippet := some "s1" }

/-- A second generic-web raw result. -/
def rawW2 : RawWeb :=
  { title := some "W2", link := some "https://w2.example", snippet := some "s2" }

/-- Environment with two organic results and one good shopping result. -/
def envGen : WebEnv :=
  ⟨some "k", fun _ => [rawW1, rawW2], fun _ => [rawA]⟩

/-- Tool environment whose catalog tool always raises `"boom"` and whose web
tool succeeds. -/
def envBoom : ToolEnv :=
  ⟨fun _ => .error "boom", fun _ => .ok "okpayload"⟩

/-- A `tools/call` request naming an unregistered tool. -/
def msgUnknownTool : Message :=
  ⟨some (.num 1), some "tools/call", some ⟨some "mystery_tool", []⟩⟩

/-- A `tools/call` request for the catalog tool (whose implementation raises
in `envBoom`). -/
def msgRagBoom : Message :=
  ⟨some (.num 2), some "tools/call", some ⟨some "rag_search_tool", []⟩⟩

/-- A request with an unknown method. -/
def msgBadMethod : Message :=
  ⟨some (.str "x7"), some "nope", none⟩

/-- A row with a valid price and a missing rating. -/
def rowMissingRating : PRow :=
  { id := "r1", title := "Toy Bear", price := .num 5, rating := .na }

/-- A row whose price fails numeric parsing (e.g. the string `"N/A"`). -/
def rowBadPrice : PRow :=
  { id := "r2", title := "Broken Row", price := .na, rating := .num 4 }

/-! ## Helper lemmas -/

/-- `leadsWith` is reflexive. -/
theorem leadsWith_refl : ∀ l : List Char, leadsWith l l = true := by
  intro l
  induction l with
  | nil => rfl
  | cons c t ih => simp [leadsWith, ih]

/-- A list contains itself as a substring of any left extension. -/
theorem hasSub_append : ∀ (p n : List Char), hasSub n (p ++ n) = true := by
  intro p n
  induction p with
  | nil =>
    cases n with
    | nil => rfl
    | cons c t => simp [hasSub, leadsWith_refl]
  | cons c p ih => simp [hasSub, ih]

/-- A string contains any of its suffixes as a substring. -/
theorem strContains_append (p n : String) : strContains n (p ++ n) = true := by
  unfold strContains
  have h : (p ++ n).toList = p.toList ++ n.toList := by simp
  rw [h]
  exact hasSub_append p.toList n.toList

/-- The head of the `re.split` part list is the text before the first
separator character. -/
theorem splitSeps_cons_take :
    ∀ l : List Char, ∃ ps, splitSeps l = (l.takeWhile (fun c => !sepChar c)) :: ps := by
  intro l
  induction l with
  | nil => exact ⟨[], rfl⟩
  | cons c rest ih =>
    by_cases hc : sepChar c = true
    · exact ⟨splitSeps rest, by simp [splitSeps, hc, List.takeWhile_cons]⟩
    · obtain ⟨ps, hps⟩ := ih
      refine ⟨ps, ?_⟩
      rw [Bool.not_eq_true] at hc
      simp [splitSeps, hc, hps, List.takeWhile_cons]

/-- A tool name matching neither registered tool has no entry in
`tool_functions`. -/
theorem toolFor_eq_none (env : ToolEnv) (nm : Option String)
    (h1 : nm ≠ some "rag_search_tool") (h2 : nm ≠ some "web_search_tool") :
    toolFor env nm = none := by
  unfold toolFor
  split
  · simp_all
  · simp_all
  · rfl

/-- In the descending key order, an element ordered after one that has a
rating must itself have a rating. -/
theorem descRel_rating {a b : WebResult} (h : descRel a b)
    (hb : b.rating.isSome = true) : a.rating.isSome = true := by
  by_cases ha : a.rating.isSome = true
  · exact ha
  · exfalso
    rw [Bool.not_eq_true] at ha
    unfold descRel qkey keyLE at h
    rw [hb, ha] at h
    simp at h

/-! ## Claim theorems -/

/-- C1: for every pipeline run started with only `input` populated — for every
possible behavior of the language model and of the retrieval sub-agent — the
Answerer stage sets `done = True` unconditionally, so the conditional edge out
of Answer goes to termination: the run visits Router, Planner, Retriever and
Answerer exactly once each, in that order, and the loop-back edge to Planner
is never traversed. -/
theorem pipeline_single_pass (o : Oracle) (q : String) :
    (runPipeline o q).1 = [GNode.router, GNode.planner, GNode.retriever, GNode.answer] ∧
    (runPipeline o q).2.done = some true ∧
    nextNode GNode.answer (runPipeline o q).2 = none :=
  ⟨rfl, rfl, rfl⟩

/-- C4: each stage writes only its own fields — Router only `intent`, Planner
only `plan`, Retriever only `knowledge` and `retrieved_context`, Answerer only
`response` and `done`; no stage writes `input`; over the four stage updates
every field other than `input` and `done` is written by exactly one stage; and
the final state of every run keeps `input` equal to the original query.
(`writeVec` lists key presence in the order `input`, `intent`, `plan`,
`knowledge`, `retrieved_context`, `response`, `done`.) -/
theorem stage_write_discipline (o : Oracle) (sR sP sV sA : PState) (q : String) :
    writeVec (routerUpdate o sR) = [false, true, false, false, false, false, false] ∧
    writeVec (plannerUpdate o sP) = [false, false, true, false, false, false, false] ∧
    writeVec (retrieveUpdate o sV) = [false, false, false, true, true, false, false] ∧
    writeVec (answerUpdate o sA) = [false, false, false, false, false, true, true] ∧
    ([routerUpdate o sR, plannerUpdate o sP, retrieveUpdate o sV,
        answerUpdate o sA].countP (fun u => u.input.isSome) = 0) ∧
    ([routerUpdate o sR, plannerUpdate o sP, retrieveUpdate o sV,
        answerUpdate o sA].countP (fun u => u.intent.isSome) = 1) ∧
    ([routerUpdate o sR, plannerUpdate o sP, retrieveUpdate o sV,
        answerUpdate o sA].countP (fun u => u.plan.isSome) = 1) ∧
    ([routerUpdate o sR, plannerUpdate o sP, retrieveUpdate o sV,
        answerUpdate o sA].countP (fun u => u.knowledge.isSome) = 1) ∧
    ([routerUpdate o sR, plannerUpdate o sP, retrieveUpdate o sV,
        answerUpdate o sA].countP (fun u => u.retrievedContext.isSome) = 1) ∧
    ([routerUpdate o sR, plannerUpdate o sP, retrieveUpdate o sV,
        answerUpdate o sA].countP (fun u => u.response.isSome) = 1) ∧
    (runPipeline o q).2.input = q :=
  ⟨rfl, rfl, rfl, rfl, rfl, rfl, rfl, rfl, rfl, rfl, rfl⟩

/-- C8: every response produced by `process_mcp_message` — initialize,
tools/list, tools/call success, unknown tool, tool execution error, unknown
method — carries `jsonrpc = "2.0"` and echoes the request message's `id`
(absent id echoed as absent). -/
theorem response_envelope (env : ToolEnv) (m : Message) :
    (processMcpMessage env m).jsonrpc = "2.0" ∧ (processMcpMessage env m).id = m.id := by
  simp only [processMcpMessage, handleInitialize, handleToolsList, handleToolsCall]
  constructor <;> (repeat' split) <;> rfl

/-- C2: a `tools/call` request whose tool name is not exactly
`rag_search_tool` or `web_search_tool` yields error code `-32601`; a request
naming a known tool whose implementation raises yields error code `-32603`
with the exception's message contained in the error message; a request with
an unknown method yields `-32601`. In every case the server returns a
response (the dispatcher is a total function) instead of crashing. -/
theorem tool_call_error_codes (env : ToolEnv) (m : Message) :
    (m.method = some "tools/call" →
      (m.params.getD emptyParams).name ≠ some "rag_search_tool" →
      (m.params.getD emptyParams).name ≠ some "web_search_tool" →
      (processMcpMessage env m).body =
        RBody.errorResult (-32601)
          ("Tool not found: " ++ pyShowName (m.params.getD emptyParams).name)) ∧
    (∀ e, m.method = some "tools/call" →
      (m.params.getD emptyParams).name = some "rag_search_tool" →
      env.rag (m.params.getD emptyParams).arguments = .error e →
      (processMcpMessage env m).body =
          RBody.errorResult (-32603) ("Tool execution error: " ++ e) ∧
        strContains e ("Tool execution error: " ++ e) = true) ∧
    (∀ e, m.method = some "tools/call" →
      (m.params.getD emptyParams).name = some "web_search_tool" →
      env.web (m.params.getD emptyParams).arguments = .error e →
      (processMcpMessage env m).body =
          RBody.errorResult (-32603) ("Tool execution error: " ++ e) ∧
        strContains e ("Tool execution error: " ++ e) = true) ∧
    (m.method ≠ some "initialize" → m.method ≠ some "tools/list" →
      m.method ≠ some "tools/call" →
      (processMcpMessage env m).body =
        RBody.errorResult (-32601) ("Method not found: " ++ pyShowName m.method)) := by
  refine ⟨?_, ?_, ?_, ?_⟩
  · intro hm h1 h2
    simp only [processMcpMessage, hm, handleToolsCall, toolFor_eq_none env _ h1 h2]
  · intro e hm hn he
    simp only [processMcpMessage, hm, handleToolsCall, hn, toolFor, he]
    exact ⟨trivial, strContains_append "Tool execution error: " e⟩
  · intro e hm hn he
    simp only [processMcpMessage, hm, handleToolsCall, hn, toolFor, he]
    exact ⟨trivial, strContains_append "Tool execution error: " e⟩
  · intro h1 h2 h3
    unfold processMcpMessage
    split
    · simp_all
    · simp_all
    · simp_all
    · rfl

/-- Witness for C2: the three error shapes at concrete requests against a
tool environment whose catalog tool raises `"boom"`. -/
theorem tool_call_error_codes_witness :
    (processMcpMessage envBoom msgUnknownTool).body =
      RBody.errorResult (-32601) ("Tool not found: " ++ pyShowName (some "mystery_tool")) ∧
    ((processMcpMessage envBoom msgRagBoom).body =
        RBody.errorResult (-32603) ("Tool execution error: " ++ "boom") ∧
      strContains "boom" ("Tool execution error: " ++ "boom") = true) ∧
    (processMcpMessage envBoom msgBadMethod).body =
      RBody.errorResult (-32601) ("Method not found: " ++ pyShowName (some "nope")) :=
  ⟨(tool_call_error_codes envBoom msgUnknownTool).1 rfl (by decide) (by decide),
   (tool_call_error_codes envBoom msgRagBoom).2.1 "boom" rfl rfl rfl,
   (tool_call_error_codes envBoom msgBadMethod).2.2.2 (by decide) (by decide) (by decide)⟩

/-- C3: every shopping-mode result list is sorted in descending lexicographic
order on the composite key `(has_rating, rating_count, rating)` — with a
missing `rating_count` treated as `0` and a missing `rating` as `0.0`, as
`qkey` does; in the sorted output every rated item precedes every unrated
item; and on the spec's example A(4.5, 10 reviews), B(no rating),
C(4.9, 2 reviews) the returned order is A, C, B. -/
theorem shopping_quality_ranking :
    (∀ (env : WebEnv) (q : String) (n : Nat),
      ((webSearchTool env q n "shopping").results).Pairwise descRel ∧
      ((webSearchTool env q n "shopping").results).Pairwise
        (fun a b => b.rating.isSome = true → a.rating.isSome = true)) ∧
    (webSearchTool envABC "plush toy" 5 "shopping").results =
      [convShop rawA, convShop rawC, convShop rawB] := by
  constructor
  · intro env q n
    have hmain : ((webSearchTool env q n "shopping").results).Pairwise descRel := by
      simp only [webSearchTool, serperShopping]
      cases h : env.apiKey with
      | none => simp
      | some k =>
        exact List.Pairwise.sublist (List.take_sublist _ _)
          (List.sorted_insertionSort descRel _)
    exact ⟨hmain, hmain.imp (fun hab => descRel_rating hab)⟩
  · decide

/-- C5 (code evaluation at the failing input): the offline index build drops
the row with an unparseable price and still indexes the row with a missing
rating, giving it metadata rating `0.0` — but the missing rating is NOT
excluded from the embedded feature text: `df["rating"].astype(str)` runs
before `.fillna("")`, so the feature text of such a row contains the literal
substring `"nan"`. -/
theorem index_missing_rating_embeds_nan :
    buildIndex [rowMissingRating, rowBadPrice] =
      [⟨"r1", featuresOf rowMissingRating, "Toy Bear", "", "", 5, 0, ""⟩] ∧
    strContains "nan" (featuresOf rowMissingRating) = true := by
  exact ⟨by decide, by decide⟩

/-- C6 (counterexample to the claim as stated): when the URL filter discards
every fetched shopping result, `_call_serper_shopping` falls back to the
unfiltered list, so a result with no URL at all is returned to the caller. -/
theorem shopping_url_fallback_cex :
    (webSearchTool envNoUrl "toy car" 5 "shopping").results = [convShop rawNoUrl] ∧
    (convShop rawNoUrl).url = none := by
  exact ⟨by decide, rfl⟩

/-- C6 (amended): provided at least one fetched shopping result survives the
URL filter, every result returned in shopping mode has a non-empty stripped
URL whose lowercasing does not contain `"q=nan"` (the `goodUrl` predicate). -/
theorem shopping_url_guarantee (env : WebEnv) (q : String) (n : Nat)
    (hne : (((env.shopping (effQuery q)).take n).map convShop).filter goodUrl ≠ []) :
    ∀ r ∈ (webSearchTool env q n "shopping").results, goodUrl r = true := by
  intro r hr
  simp only [webSearchTool, serperShopping] at hr
  rcases h : env.apiKey with _ | k <;> rw [h] at hr
  · simp at hr
  · replace hr : r ∈ (List.insertionSort descRel
        (if ((((env.shopping (effQuery q)).take n).map convShop).filter
              goodUrl).isEmpty = true
         then ((env.shopping (effQuery q)).take n).map convShop
         else (((env.shopping (effQuery q)).take n).map convShop).filter
              goodUrl)).take n := hr
    rw [(List.isEmpty_eq_false).mpr hne] at hr
    rw [if_neg Bool.false_ne_true] at hr
    have hr1 : r ∈ List.insertionSort descRel
        ((((env.shopping (effQuery q)).take n).map convShop).filter goodUrl) :=
      (List.take_sublist _ _).subset hr
    have hr2 : r ∈ (((env.shopping (effQuery q)).take n).map convShop).filter goodUrl :=
      ((List.perm_insertionSort descRel _).mem_iff).mp hr1
    exact (List.mem_filter.mp hr2).2

/-- Witness for the amended C6 at a concrete environment with one
good-URL shopping result. -/
theorem shopping_url_guarantee_witness : goodUrl (convShop rawA) = true :=
  shopping_url_guarantee envGen "toy" 5 (by decide) (convShop rawA) (by decide)

/-- C7: the query normalization of the web search tool truncates the title at
the first occurrence of any separator among the five separator characters
(`cleanTitle` equals the spec-phrased `cleanTitleSpec` built on `takeWhile`),
strips the fixed noise patterns and collapses whitespace; and the search uses
the original query exactly when the normalized string is empty, otherwise the
normalized string — observable through the query handed to the upstream
search. -/
theorem title_normalization :
    (∀ title : String, cleanTitle title = cleanTitleSpec title) ∧
    (∀ q : String, cleanTitle q = "" → effQuery q = q) ∧
    (∀ q : String, cleanTitle q ≠ "" → effQuery q = cleanTitle q) ∧
    (∀ (env : WebEnv) (q : String) (n : Nat), env.apiKey.isSome = true →
      (webSearchTool env q n "web").results =
        ((env.organic (effQuery q)).take n).map convWeb) := by
  refine ⟨?_, ?_, ?_, ?_⟩
  · intro title
    unfold cleanTitle cleanTitleSpec
    by_cases h0 : title = ""
    · simp [h0]
    · rw [if_neg h0, if_neg h0]
      obtain ⟨ps, hps⟩ := splitSeps_cons_take title.toList
      rw [hps]
  · intro q h
    simp [effQuery, h]
  · intro q h
    simp [effQuery, h]
  · intro env q n hk
    simp only [webSearchTool, serperSearch]
    cases h : env.apiKey with
    | none => rw [h] at hk; simp at hk
    | some k =>
      rw [if_neg (by decide : ¬("web" = "shopping"))]

/-- Witness for C7: a query of only separators falls back to the original;
a separated noisy title is normalized; and a concrete generic-mode call uses
the normalized query. -/
theorem title_normalization_witness :
    effQuery ":::" = ":::" ∧
    effQuery "Teddy Bear | 12 pcs Set" = cleanTitle "Teddy Bear | 12 pcs Set" ∧
    cleanTitle "Teddy Bear | 12 pcs Set" = "Teddy Bear" ∧
    (webSearchTool envGen "Plush (large)" 2 "web").results =
      ((envGen.organic (effQuery "Plush (large)")).take 2).map convWeb :=
  ⟨title_normalization.2.1 ":::" (by decide),
   title_normalization.2.2.1 "Teddy Bear | 12 pcs Set" (by decide),
   by decide,
   title_normalization.2.2.2 envGen "Plush (large)" 2 rfl⟩

/-- C9: in generic web mode (any mode other than `"shopping"`), every
returned result has `price = None`, `availability = None` and no
`rating`/`rating_count` fields, and — whenever the API key is configured —
the returned list is exactly the upstream organic list truncated and mapped
in order, with no URL filtering and no quality sorting. -/
theorem generic_mode_fields (env : WebEnv) (q : String) (n : Nat) (mode : String)
    (hm : mode ≠ "shopping") :
    (∀ r ∈ (webSearchTool env q n mode).results,
      r.price = none ∧ r.availability = none ∧ r.rating = none ∧ r.ratingCount = none) ∧
    (env.apiKey.isSome = true →
      (webSearchTool env q n mode).results =
        ((env.organic (effQuery q)).take n).map convWeb) := by
  constructor
  · intro r hr
    simp only [webSearchTool, serperSearch] at hr
    rcases h : env.apiKey with _ | k <;> rw [h] at hr
    · simp at hr
    · rw [if_neg hm] at hr
      rcases List.mem_map.mp hr with ⟨it, _, rfl⟩
      exact ⟨rfl, rfl, rfl, rfl⟩
  · intro hk
    simp only [webSearchTool, serperSearch]
    cases h : env.apiKey with
    | none => rw [h] at hk; simp at hk
    | some k => rw [if_neg hm]

/-- Witness for C9 at mode `"web"` and a concrete environment. -/
theorem generic_mode_fields_witness :
    ((convWeb rawW1).price = none ∧ (convWeb rawW1).availability = none ∧
      (convWeb rawW1).rating = none ∧ (convWeb rawW1).ratingCount = none) ∧
    (webSearchTool envGen "toy" 2 "web").results =
      ((envGen.organic (effQuery "toy")).take 2).map convWeb :=
  ⟨(generic_mode_fields envGen "toy" 2 "web" (by decide)).1 (convWeb rawW1) (by decide),
   (generic_mode_fields envGen "toy" 2 "web" (by decide)).2 rfl⟩

/-- C10: `web_search_tool` is total in `mode` — every mode string other than
exactly `"shopping"`, including strings outside the declared enum such as
`"Shopping"`, takes the generic web branch and behaves exactly like
`mode = "web"`; no error arises from the mode value. -/
theorem mode_dispatch_total (env : WebEnv) (q : String) (n : Nat) (mode : String)
    (hm : mode ≠ "shopping") :
    webSearchTool env q n mode = webSearchTool env q n "web" := by
  simp only [webSearchTool]
  cases h : env.apiKey with
  | none => rfl
  | some k => rw [if_neg hm, if_neg (by decide : ¬("web" = "shopping"))]

/-- Witness for C10 at the out-of-enum mode string `"Shopping"`. -/
theorem mode_dispatch_total_witness :
    webSearchTool envGen "toy" 3 "Shopping" = webSearchTool envGen "toy" 3 "web" :=
  mode_dispatch_total envGen "toy" 3 "Shopping" (by decide)
